import Mathlib

/-!
Verification of the order-construction and networking logic of the IRMA
stablecoin front-end (src/lib/mint.ts, src/components/TokenBalances.tsx).

JavaScript numeric arithmetic on the integer-valued quantities involved is
modelled as exact arithmetic: integers become ℤ, real-valued intermediate
expressions become ℚ, and Math.floor becomes Int.floor. Fallible external
calls (RPC endpoints, account fetches, signing) are modelled as
Except-valued oracles supplied through an environment record, so that a
straight-line async function with try/catch becomes a total function on
that environment.
-/

/-! Market lot sizes, from the fetched market account (BN i64 fields
baseLotSize and quoteLotSize in the source). -/

structure MarketAccount where
  baseLotSize : ℤ
  quoteLotSize : ℤ
deriving DecidableEq, Repr

/-- Embeds priceLotsCalculation from createOpenBookV2OrderInstruction:
(priceInMicroUnits * market.quoteLotSize.toNumber()) /
(market.baseLotSize.toNumber() * 1000000), as a real-valued quotient. -/
def priceLotsCalculation (m : MarketAccount) (priceInMicroUnits : ℤ) : ℚ :=
  ((priceInMicroUnits * m.quoteLotSize : ℤ) : ℚ) / ((m.baseLotSize * 1000000 : ℤ) : ℚ)

/-- Embeds priceLots from the source: new BN(Math.max(1, Math.floor(priceLotsCalculation))). -/
def priceLots (m : MarketAccount) (priceInMicroUnits : ℤ) : ℤ :=
  max 1 ⌊priceLotsCalculation m priceInMicroUnits⌋

/-- Embeds maxBaseLots from the source:
new BN(Math.floor(sizeInMicroUnits / market.baseLotSize.toNumber())). -/
def maxBaseLots (m : MarketAccount) (sizeInMicroUnits : ℤ) : ℤ :=
  ⌊((sizeInMicroUnits : ℤ) : ℚ) / ((m.baseLotSize : ℤ) : ℚ)⌋

/-- Embeds totalQuoteNeeded from the source:
(priceInMicroUnits * sizeInMicroUnits * 1.1) / 1000000. -/
def totalQuoteNeeded (priceInMicroUnits sizeInMicroUnits : ℤ) : ℚ :=
  ((priceInMicroUnits * sizeInMicroUnits : ℤ) : ℚ) * (11 / 10) / 1000000

/-- Embeds maxQuoteLotsIncludingFees from the source:
new BN(Math.floor(totalQuoteNeeded / market.quoteLotSize.toNumber())). -/
def maxQuoteLotsIncludingFees (m : MarketAccount) (priceInMicroUnits sizeInMicroUnits : ℤ) : ℤ :=
  ⌊totalQuoteNeeded priceInMicroUnits sizeInMicroUnits / ((m.quoteLotSize : ℤ) : ℚ)⌋

/-- Modelled from the spec wording for the price-in-lots formula:
floor(price_per_unit_in_smallest_quote_denomination * quote_lot_size / base_lot_size),
clamped to a minimum of 1, where the price per unit in the smallest quote
denomination is the micro-unit price the calculator receives. -/
def priceLots_specFormula (m : MarketAccount) (priceInMicroUnits : ℤ) : ℤ :=
  max 1 ⌊((priceInMicroUnits * m.quoteLotSize : ℤ) : ℚ) / ((m.baseLotSize : ℤ) : ℚ)⌋

/-- Modelled from the spec wording for the max-quote-lots formula:
floor((price * quantity * safety_margin) / quote_lot_size) with
safety_margin = 1.10 and price and quantity taken in smallest-denomination
units (micro-units), as the calculator receives them. -/
def maxQuoteLots_specFormula (m : MarketAccount) (priceInMicroUnits sizeInMicroUnits : ℤ) : ℤ :=
  ⌊((priceInMicroUnits * sizeInMicroUnits : ℤ) : ℚ) * (11 / 10) / ((m.quoteLotSize : ℤ) : ℚ)⌋

/-- Modelled from the spec wording of the order-parameter invariant: all
integer lot fields are non-negative, and each is at least 1 because a zero
value in any of the three would make the order unfillable. -/
def orderParamsInvariant (priceL baseL quoteL : ℤ) : Prop :=
  0 ≤ priceL ∧ 0 ≤ baseL ∧ 0 ≤ quoteL ∧ 1 ≤ priceL ∧ 1 ≤ baseL ∧ 1 ≤ quoteL

/-! Connection selector, from getWorkingConnection in src/lib/mint.ts. The
liveness check (constructing a Connection and awaiting getSlot) is abstracted
as a boolean probe oracle: true means the getSlot call succeeded, false means
it threw and the loop continued to the next endpoint. -/

def endpoint1 : String := "https://api.devnet.solana.com"

def endpoint2 : String := "https://solana-devnet.rpc.extrnode.com"

def endpoint3 : String := "https://ssc-dao.genesysgo.net"

/-- Embeds the hard-coded endpoints array of getWorkingConnection. -/
def endpoints : List String := [endpoint1, endpoint2, endpoint3]

/-- Embeds the for-loop of getWorkingConnection over an endpoint list: return
the first endpoint whose probe succeeds, or throw once the list is exhausted. -/
def selectFrom (probe : String → Bool) : List String → Except String String
  | [] => Except.error "All RPC endpoints failed"
  | e :: rest => if probe e then Except.ok e else selectFrom probe rest

/-- Embeds the set of endpoints the loop actually probes: every endpoint up to
and including the first success. -/
def probedFrom (probe : String → Bool) : List String → List String
  | [] => []
  | e :: rest => if probe e then [e] else e :: probedFrom probe rest

/-- Embeds getWorkingConnection: probe the fixed endpoint list in order. -/
def getWorkingConnection (probe : String → Bool) : Except String String :=
  selectFrom probe endpoints

/-- Embeds the endpoints probed by one call to getWorkingConnection. -/
def probedEndpoints (probe : String → Bool) : List String :=
  probedFrom probe endpoints

/-! Rate limiter, from class RateLimiter in src/lib/mint.ts. Wall-clock time
is modelled explicitly: a call to throttle is described by the time now at
which Date.now() is first read and, when the guard triggers a wait, the time
resumeTime at which the setTimeout continuation runs and Date.now() is read
again. The setTimeout contract (the continuation runs no earlier than the
requested delay) becomes the hypothesis resumeTime ≥ now + waitTime. -/

def RATE_LIMIT_DELAY : ℤ := 1000

structure RateLimiterState where
  lastRequestTime : ℤ
deriving DecidableEq, Repr

/-- Embeds RateLimiter.throttle: reads the clock, waits out the remainder of
the interval when the previous request was too recent, then records the
current time and returns. The first component is the wall-clock time at which
the call returns, the second the updated limiter state. -/
def throttle (st : RateLimiterState) (now resumeTime : ℤ) : ℤ × RateLimiterState :=
  let timeSinceLastRequest := now - st.lastRequestTime
  if timeSinceLastRequest < RATE_LIMIT_DELAY then
    (resumeTime, ⟨resumeTime⟩)
  else
    (now, ⟨now⟩)

/-! Order status, from getOrderStatus in src/lib/mint.ts. -/

inductive OrderStatusTag where
  | pending
  | filled
  | cancelled
  | error
deriving DecidableEq, Repr

structure OrderStatusRecord where
  status : OrderStatusTag
  filledAmount : Option ℚ
  remainingAmount : Option ℚ
  price : Option ℚ
deriving DecidableEq, Repr

/-- Embeds getOrderStatus: the try block only logs and returns a fixed
placeholder record, so the success path is taken for every order id and the
catch branch (which would return a record tagged error) is unreachable. -/
def getOrderStatus (orderId : String) : Option OrderStatusRecord :=
  some { status := OrderStatusTag.pending
         filledAmount := some 0
         remainingAmount := some 0
         price := some (104 / 100) }

/-! Order submitter, from createOpenBookV2OrderInstruction and mintIrmaToken
in src/lib/mint.ts. Each awaited external call is an Except-valued oracle in
an environment record; a thrown error is the error case and the try/catch of
the source becomes the match on the sequenced result. The pure order
parameter computation between the market null-check and placeOrderIx is the
lot arithmetic modelled above and cannot fail in the model. The second
component of each result counts how many times sendRawTransaction (the
broadcast step) is reached. -/

structure SubmitResult where
  success : Bool
  orderId : Option String
  message : String
deriving DecidableEq, Repr

structure SubmitEnv where
  fetchMarket : Except String (Option MarketAccount)
  createOpenOrdersIx : Except String Unit
  placeOrderIx : Except String Unit
  getLatestBlockhash : Except String String
  simulateTransaction : Except String Unit
  signTransaction : Except String Unit
  sendRawTransaction : Except String String

/-- Decides whether an oracle call failed (threw). -/
def failed {α : Type} : Except String α → Bool
  | Except.error _ => true
  | Except.ok _ => false

/-- Decides whether the market fetch succeeded but returned no market,
triggering the "Market not found" throw of the source. -/
def marketMissing : Except String (Option MarketAccount) → Bool
  | Except.ok none => true
  | _ => false

/-- Embeds the body of the try block of createOpenBookV2OrderInstruction:
market fetch, open-orders instruction derivation, market null-check, order
parameter computation, order instruction derivation, blockhash fetch,
simulation, signing, broadcast. Returns the sequencing outcome paired with
the number of broadcast attempts. -/
def createOrderRun (env : SubmitEnv) : Except String String × Nat :=
  match env.fetchMarket with
  | Except.error e => (Except.error e, 0)
  | Except.ok m =>
    match env.createOpenOrdersIx with
    | Except.error e => (Except.error e, 0)
    | Except.ok _ =>
      match m with
      | none => (Except.error "Market not found", 0)
      | some _ =>
        match env.placeOrderIx with
        | Except.error e => (Except.error e, 0)
        | Except.ok _ =>
          match env.getLatestBlockhash with
          | Except.error e => (Except.error e, 0)
          | Except.ok _ =>
            match env.simulateTransaction with
            | Except.error e => (Except.error e, 0)
            | Except.ok _ =>
              match env.signTransaction with
              | Except.error e => (Except.error e, 0)
              | Except.ok _ =>
                match env.sendRawTransaction with
                | Except.error e => (Except.error e, 1)
                | Except.ok txHash => (Except.ok txHash, 1)

/-- Embeds createOpenBookV2OrderInstruction: the catch branch converts any
thrown error into a success-false result, the success path wraps the
transaction hash. -/
def createOpenBookV2OrderInstruction (env : SubmitEnv) : SubmitResult × Nat :=
  match createOrderRun env with
  | (Except.ok txHash, n) =>
      ({ success := true, orderId := some txHash,
         message := "OpenBook v2 order instruction created successfully" }, n)
  | (Except.error e, n) =>
      ({ success := false, orderId := none,
         message := "Failed to create order instruction: " ++ e }, n)

structure MintEnv where
  getConnection : Except String Unit
  getAccountInfo : Except String (Option Unit)
  submit : SubmitEnv
  getLatestBlockhash2 : Except String String

/-- Embeds mintIrmaToken: throttle, acquire a working connection, probe the
market account (only a thrown probe is rethrown as an invalid-address error;
a missing account is merely logged), compute the order request, delegate to
createOpenBookV2OrderInstruction, rethrow on its failure, fetch a second
blockhash for logging, and return true; the outer catch turns every thrown
error into false. -/
def mintIrmaToken (env : MintEnv) : Bool × Nat :=
  match env.getConnection with
  | Except.error _ => (false, 0)
  | Except.ok _ =>
    match env.getAccountInfo with
    | Except.error _ => (false, 0)
    | Except.ok _ =>
      let orderResult := createOpenBookV2OrderInstruction env.submit
      if orderResult.1.success then
        match env.getLatestBlockhash2 with
        | Except.error _ => (false, orderResult.2)
        | Except.ok _ => (true, orderResult.2)
      else (false, orderResult.2)

/-- Concrete submit environment in which every step succeeds. -/
def submitEnvAllOk : SubmitEnv :=
  { fetchMarket := Except.ok (some ⟨1, 1⟩)
    createOpenOrdersIx := Except.ok ()
    placeOrderIx := Except.ok ()
    getLatestBlockhash := Except.ok "hash1"
    simulateTransaction := Except.ok ()
    signTransaction := Except.ok ()
    sendRawTransaction := Except.ok "txhash" }

/-- Concrete submit environment in which the market fetch throws. -/
def submitEnvFetchFails : SubmitEnv :=
  { submitEnvAllOk with fetchMarket := Except.error "fetch failed" }

/-- Concrete mint environment in which connection acquisition throws. -/
def mintEnvConnFails : MintEnv :=
  { getConnection := Except.error "All RPC endpoints failed"
    getAccountInfo := Except.ok (some ())
    submit := submitEnvAllOk
    getLatestBlockhash2 := Except.ok "hash2" }

/-! Balance reader, from fetchTokenBalances in src/components/TokenBalances.tsx.
Parsed token account data keeps the two fields the reader uses: the
human-readable uiAmount (null when the RPC reports none, read with a
falsy-default of 0) and the decimal count (read with a falsy-default of 6, so
a literal 0 also falls back to 6). The per-mint account lookup and the
untargeted whole-wallet scan are oracles; the mint-existence probe of the
source is omitted because its result is only logged and every error in it is
swallowed. The boolean in the result records whether the untargeted fallback
scan was attempted, which the source does exactly when every tracked balance
resolved to zero; the outcome of that scan is only logged, so it cannot
affect the returned records. -/

structure ParsedTokenAccount where
  uiAmount : Option ℚ
  decimals : ℕ
deriving DecidableEq, Repr

structure TokenBalance where
  mint : String
  symbol : String
  balance : ℚ
  decimals : ℕ
  mintAddress : String
deriving DecidableEq, Repr

def irmaMint : String := "BGySzmvQrR69thSD5iVhhBrQ1CLnFYKakszRFuzwb1yj"

def usdcMint : String := "7zSzGfA7r8cxhGPyJUX2CJzViLS9FX7a2b3F94qcZLkU"

/-- Embeds the TOKENS constant: tracked mint addresses with their symbols. -/
def TOKENS : List (String × String) := [(irmaMint, "IRMA"), (usdcMint, "USDC")]

structure BalanceEnv where
  getConnection : Except String Unit
  getTokenAccounts : String → Except String (List ParsedTokenAccount)
  getAllTokenAccounts : Except String (List ParsedTokenAccount)
  getSolBalance : Except String ℤ

/-- Embeds one iteration of the per-token loop: a failed lookup is caught and
recorded as a zero balance with the default precision; an empty account list
keeps the initialized defaults of 0 and 6; otherwise the first account
supplies balance and precision. The record stores the symbol in both the mint
and symbol fields and the address in mintAddress, as the source does. -/
def balanceFor (env : BalanceEnv) (mint symbol : String) : TokenBalance :=
  match env.getTokenAccounts mint with
  | Except.error _ =>
      { mint := symbol, symbol := symbol, balance := 0, decimals := 6, mintAddress := mint }
  | Except.ok [] =>
      { mint := symbol, symbol := symbol, balance := 0, decimals := 6, mintAddress := mint }
  | Except.ok (a :: _) =>
      { mint := symbol, symbol := symbol,
        balance := a.uiAmount.getD 0,
        decimals := if a.decimals = 0 then 6 else a.decimals,
        mintAddress := mint }

/-- Embeds fetchTokenBalances: acquire a connection (on failure, degrade to a
native-SOL-only record or to an empty list), build one record per tracked
token, and when every record resolved to zero attempt the untargeted fallback
scan, whose result is only logged and whose errors are swallowed. Returns the
records together with whether the fallback scan was attempted. -/
def fetchTokenBalances (env : BalanceEnv) : List TokenBalance × Bool :=
  match env.getConnection with
  | Except.error _ =>
      match env.getSolBalance with
      | Except.ok lamports =>
          ([{ mint := "SOL", symbol := "SOL", balance := (lamports : ℚ) / 1000000000,
              decimals := 9, mintAddress := "Native SOL" }], false)
      | Except.error _ => ([], false)
  | Except.ok _ =>
      let balances := TOKENS.map (fun t => balanceFor env t.1 t.2)
      (balances, balances.all (fun b => b.balance == 0))

/-- Concrete balance environment: live connection, no token accounts for any
mint, a failing untargeted scan, zero native balance. -/
def balanceEnvEmpty : BalanceEnv :=
  { getConnection := Except.ok ()
    getTokenAccounts := fun _ => Except.ok []
    getAllTokenAccounts := Except.error "scan failed"
    getSolBalance := Except.ok 0 }

/-! Helper lemmas. -/

/-- Floor of an exact integer quotient with positive divisor is Euclidean division. -/
lemma floor_intCast_div_intCast_of_pos (a b : ℤ) (hb : 0 < b) :
    ⌊((a : ℤ) : ℚ) / ((b : ℤ) : ℚ)⌋ = a / b := by
  obtain ⟨n, rfl⟩ := Int.eq_ofNat_of_zero_le hb.le
  have h := Rat.floor_intCast_div_natCast a n
  simpa using h

/-- Reduces the computed price-in-lots to an integer division. -/
lemma priceLots_eq_intDiv (m : MarketAccount) (p : ℤ) (hb : 0 < m.baseLotSize) :
    priceLots m p = max 1 ((p * m.quoteLotSize) / (m.baseLotSize * 1000000)) := by
  unfold priceLots priceLotsCalculation
  rw [floor_intCast_div_intCast_of_pos]
  positivity

/-- Reduces the computed max-base-lots to an integer division. -/
lemma maxBaseLots_eq_intDiv (m : MarketAccount) (s : ℤ) (hb : 0 < m.baseLotSize) :
    maxBaseLots m s = s / m.baseLotSize := by
  unfold maxBaseLots
  exact floor_intCast_div_intCast_of_pos s m.baseLotSize hb

/-- Reduces the computed max-quote-lots to an integer division. -/
lemma maxQuoteLots_eq_intDiv (m : MarketAccount) (p s : ℤ) (hq : 0 < m.quoteLotSize) :
    maxQuoteLotsIncludingFees m p s = (11 * (p * s)) / (10000000 * m.quoteLotSize) := by
  have hrw : totalQuoteNeeded p s / ((m.quoteLotSize : ℤ) : ℚ) =
      ((11 * (p * s) : ℤ) : ℚ) / ((10000000 * m.quoteLotSize : ℤ) : ℚ) := by
    unfold totalQuoteNeeded
    have hq0 : ((m.quoteLotSize : ℤ) : ℚ) ≠ 0 := by
      exact_mod_cast hq.ne.symm
    push_cast
    field_simp
    ring
  unfold maxQuoteLotsIncludingFees
  rw [hrw, floor_intCast_div_intCast_of_pos]
  positivity

/-- Reduces the spec-worded max-quote-lots formula to an integer division. -/
lemma maxQuoteLots_specFormula_eq_intDiv (m : MarketAccount) (p s : ℤ)
    (hq : 0 < m.quoteLotSize) :
    maxQuoteLots_specFormula m p s = (11 * (p * s)) / (10 * m.quoteLotSize) := by
  have hrw : ((p * s : ℤ) : ℚ) * (11 / 10) / ((m.quoteLotSize : ℤ) : ℚ) =
      ((11 * (p * s) : ℤ) : ℚ) / ((10 * m.quoteLotSize : ℤ) : ℚ) := by
    have hq0 : ((m.quoteLotSize : ℤ) : ℚ) ≠ 0 := by
      exact_mod_cast hq.ne.symm
    push_cast
    field_simp
    ring
  unfold maxQuoteLots_specFormula
  rw [hrw, floor_intCast_div_intCast_of_pos]
  positivity

/-- The limiter state recorded by a throttle call is exactly the wall-clock
time at which that call returns. -/
lemma throttle_state_eq (st : RateLimiterState) (now w : ℤ) :
    (throttle st now w).2.lastRequestTime = (throttle st now w).1 := by
  unfold throttle
  by_cases h : now - st.lastRequestTime < RATE_LIMIT_DELAY <;> simp [h]

/-- A throttle call returns no earlier than the recorded previous-request time
plus the fixed interval, given the setTimeout resume contract. -/
lemma throttle_return_ge (st : RateLimiterState) (now w : ℤ)
    (hw : now + (RATE_LIMIT_DELAY - (now - st.lastRequestTime)) ≤ w) :
    st.lastRequestTime + RATE_LIMIT_DELAY ≤ (throttle st now w).1 := by
  unfold throttle
  by_cases h : now - st.lastRequestTime < RATE_LIMIT_DELAY <;> simp [h] <;> omega

/-- Characterizes the submit result flag and the broadcast count in terms of
the individual step outcomes. -/
lemma createOrder_cases (env : SubmitEnv) :
    (createOpenBookV2OrderInstruction env).1.success =
      (!failed env.fetchMarket && !marketMissing env.fetchMarket &&
        !failed env.createOpenOrdersIx && !failed env.placeOrderIx &&
        !failed env.getLatestBlockhash && !failed env.simulateTransaction &&
        !failed env.signTransaction && !failed env.sendRawTransaction) ∧
    (createOpenBookV2OrderInstruction env).2 =
      (if failed env.fetchMarket || marketMissing env.fetchMarket ||
          failed env.createOpenOrdersIx || failed env.placeOrderIx ||
          failed env.getLatestBlockhash || failed env.simulateTransaction ||
          failed env.signTransaction then 0 else 1) := by
  obtain ⟨fm, co, po, bh, sim, sg, br⟩ := env
  match fm with
  | Except.error e =>
    simp [createOpenBookV2OrderInstruction, createOrderRun, failed, marketMissing]
  | Except.ok none =>
    cases co <;>
      simp [createOpenBookV2OrderInstruction, createOrderRun, failed, marketMissing]
  | Except.ok (some mkt) =>
    cases co <;> cases po <;> cases bh <;> cases sim <;> cases sg <;> cases br <;>
      simp [createOpenBookV2OrderInstruction, createOrderRun, failed, marketMissing]

/-! Claim theorems. -/

/-- C1 counterexample: with quote lot size 1, base lot size 1 and a price of
2000000 micro-units (2 quote units per token), the code computes
max(1, floor(2000000 / 1000000)) = 2, while the formula stated in the claim
gives max(1, floor(2000000 * 1 / 1)) = 2000000. -/
theorem priceLots_ne_specFormula :
    priceLots ⟨1, 1⟩ 2000000 ≠ priceLots_specFormula ⟨1, 1⟩ 2000000 := by
  rw [priceLots_eq_intDiv _ _ (by decide)]
  unfold priceLots_specFormula
  rw [floor_intCast_div_intCast_of_pos _ _ (by decide)]
  decide

/-- C1 (amended): the computed price-in-lots equals
floor(price_micro * quote_lot_size / (base_lot_size * 1000000)) clamped to a
minimum of 1 — the divisor carries an extra factor of 10^6 converting the
per-whole-token micro-unit price to a per-smallest-base-unit price — and in
particular the result is at least 1 no matter how small the raw value is. -/
theorem priceLots_eq_floor_scaled_and_ge_one (m : MarketAccount) (p : ℤ)
    (hb : 0 < m.baseLotSize) :
    priceLots m p = max 1 ((p * m.quoteLotSize) / (m.baseLotSize * 1000000)) ∧
      1 ≤ priceLots m p :=
  ⟨priceLots_eq_intDiv m p hb, le_max_left 1 _⟩

/-- C1 witness: evaluates the amended statement at base lot size 2,
quote lot size 3, price 5000000. -/
theorem priceLots_eq_floor_scaled_witness :
    priceLots ⟨2, 3⟩ 5000000 = max 1 ((5000000 * 3) / (2 * 1000000)) ∧
      1 ≤ priceLots ⟨2, 3⟩ 5000000 :=
  priceLots_eq_floor_scaled_and_ge_one ⟨2, 3⟩ 5000000 (by decide)

/-- C2: for a non-negative quantity in smallest base units and a positive
base lot size, the computed max-base-lots equals
floor(quantity_in_smallest_base_denomination / base_lot_size) and is
non-negative. -/
theorem maxBaseLots_eq_floor_div_nonneg (m : MarketAccount) (s : ℤ)
    (hs : 0 ≤ s) (hb : 0 < m.baseLotSize) :
    maxBaseLots m s = s / m.baseLotSize ∧ 0 ≤ maxBaseLots m s := by
  have heq := maxBaseLots_eq_intDiv m s hb
  refine ⟨heq, ?_⟩
  rw [heq]
  exact Int.ediv_nonneg hs hb.le

/-- C2 witness: evaluates the statement at quantity 5000000 and base lot size 2. -/
theorem maxBaseLots_eq_floor_div_witness :
    maxBaseLots ⟨2, 1⟩ 5000000 = 5000000 / 2 ∧ 0 ≤ maxBaseLots ⟨2, 1⟩ 5000000 :=
  maxBaseLots_eq_floor_div_nonneg ⟨2, 1⟩ 5000000 (by decide) (by decide)

/-- C3 counterexample: with quote lot size 1 and price and size both
1000000 micro-units (1 quote unit per token, 1 token), the code computes
floor(1000000 * 1000000 * 1.1 / 1000000 / 1) = 1100000, while the formula
stated in the claim gives floor(1000000 * 1000000 * 1.1 / 1) = 1100000000000. -/
theorem maxQuoteLots_ne_specFormula :
    maxQuoteLotsIncludingFees ⟨1, 1⟩ 1000000 1000000 ≠
      maxQuoteLots_specFormula ⟨1, 1⟩ 1000000 1000000 := by
  rw [maxQuoteLots_eq_intDiv _ _ _ (by decide),
    maxQuoteLots_specFormula_eq_intDiv _ _ _ (by decide)]
  decide

/-- C3 (amended): for a positive quote lot size, the computed max-quote-lots
equals floor((price_micro * size_micro * 1.1) / 1000000 / quote_lot_size) —
the extra division by 10^6 converts the product of a per-whole-token
micro-unit price and a micro-unit size to a total in micro quote units —
which equals the integer division (11 * price * size) / (10000000 * quote_lot_size). -/
theorem maxQuoteLots_eq_floor_scaled (m : MarketAccount) (p s : ℤ)
    (hq : 0 < m.quoteLotSize) :
    maxQuoteLotsIncludingFees m p s = (11 * (p * s)) / (10000000 * m.quoteLotSize) :=
  maxQuoteLots_eq_intDiv m p s hq

/-- C3 witness: evaluates the amended statement at quote lot size 1,
price 1000000, size 1000000. -/
theorem maxQuoteLots_eq_floor_scaled_witness :
    maxQuoteLotsIncludingFees ⟨1, 1⟩ 1000000 1000000 =
      (11 * (1000000 * 1000000)) / (10000000 * 1) :=
  maxQuoteLots_eq_floor_scaled ⟨1, 1⟩ 1000000 1000000 (by decide)

/-- C4 counterexample: at price 1040000 micro-units, size 500000 micro-units
(half a token), base lot size 1000000 and quote lot size 1, the calculator
produces max-base-lots = floor(500000 / 1000000) = 0, an unfillable order,
so the produced fields do not satisfy the invariant demanding at least 1
wherever zero would make the order unfillable. -/
theorem orderParams_invariant_violated :
    ¬ orderParamsInvariant
        (priceLots ⟨1000000, 1⟩ 1040000)
        (maxBaseLots ⟨1000000, 1⟩ 500000)
        (maxQuoteLotsIncludingFees ⟨1000000, 1⟩ 1040000 500000) := by
  have hbase : maxBaseLots ⟨1000000, 1⟩ 500000 = 0 := by
    rw [maxBaseLots_eq_intDiv _ _ (by decide)]
    decide
  intro h
  rw [hbase] at h
  exact absurd h.2.2.2.2.1 (by decide)

/-- C4 (amended): for non-negative price and size and positive lot sizes, the
produced integer fields are all non-negative, and price-in-lots alone is
clamped to at least 1; max-base-lots and max-quote-lots receive no such
clamp and may be 0, which leaves the order unfillable. -/
theorem orderParams_nonneg_priceLots_ge_one (m : MarketAccount) (p s : ℤ)
    (hp : 0 ≤ p) (hs : 0 ≤ s) (hb : 0 < m.baseLotSize) (hq : 0 < m.quoteLotSize) :
    1 ≤ priceLots m p ∧ 0 ≤ maxBaseLots m s ∧
      0 ≤ maxQuoteLotsIncludingFees m p s := by
  refine ⟨le_max_left 1 _, ?_, ?_⟩
  · unfold maxBaseLots
    apply Int.floor_nonneg.2
    positivity
  · unfold maxQuoteLotsIncludingFees totalQuoteNeeded
    apply Int.floor_nonneg.2
    positivity

/-- C4 witness: evaluates the amended statement at price 1040000, size 500000,
base lot size 1000000, quote lot size 1. -/
theorem orderParams_nonneg_witness :
    1 ≤ priceLots ⟨1000000, 1⟩ 1040000 ∧ 0 ≤ maxBaseLots ⟨1000000, 1⟩ 500000 ∧
      0 ≤ maxQuoteLotsIncludingFees ⟨1000000, 1⟩ 1040000 500000 :=
  orderParams_nonneg_priceLots_ge_one ⟨1000000, 1⟩ 1040000 500000
    (by decide) (by decide) (by decide) (by decide)

/-- C5: if the first endpoint fails its liveness check and the second
succeeds, getWorkingConnection returns the second endpoint and the third is
never probed; and if every endpoint fails, the call fails with the
distinguishable outcome "All RPC endpoints failed". -/
theorem getWorkingConnection_first_success_or_all_fail (probe : String → Bool) :
    (probe endpoint1 = false → probe endpoint2 = true →
      getWorkingConnection probe = Except.ok endpoint2 ∧
        endpoint3 ∉ probedEndpoints probe) ∧
    ((∀ e ∈ endpoints, probe e = false) →
      getWorkingConnection probe = Except.error "All RPC endpoints failed") := by
  constructor
  · intro h1 h2
    constructor
    · simp [getWorkingConnection, endpoints, selectFrom, h1, h2]
    · simp [probedEndpoints, endpoints, probedFrom, h1, h2]
      decide
  · intro hall
    have h1 := hall endpoint1 (by simp [endpoints])
    have h2 := hall endpoint2 (by simp [endpoints])
    have h3 := hall endpoint3 (by simp [endpoints])
    simp [getWorkingConnection, endpoints, selectFrom, h1, h2, h3]

/-- C5 witness: evaluates the statement with a probe accepting only the second
endpoint, and with a probe rejecting every endpoint. -/
theorem getWorkingConnection_witness :
    (getWorkingConnection (fun e => e == endpoint2) = Except.ok endpoint2 ∧
      endpoint3 ∉ probedEndpoints (fun e => e == endpoint2)) ∧
    getWorkingConnection (fun _ => false) = Except.error "All RPC endpoints failed" :=
  ⟨(getWorkingConnection_first_success_or_all_fail (fun e => e == endpoint2)).1
      (by decide) (by decide),
    (getWorkingConnection_first_success_or_all_fail (fun _ => false)).2
      (fun e _ => rfl)⟩

/-- C6: a failure of any step before the broadcast (market fetch, missing
market, open-orders derivation, order instruction derivation, blockhash
fetch, simulation, signing) yields a success-false result with zero broadcast
attempts; a success-true result is accompanied by exactly one broadcast
attempt; and a connection-acquisition failure in mintIrmaToken likewise
returns false with zero broadcasts. -/
theorem submit_no_broadcast_on_early_failure (env : SubmitEnv) (menv : MintEnv) :
    ((failed env.fetchMarket || marketMissing env.fetchMarket ||
        failed env.createOpenOrdersIx || failed env.placeOrderIx ||
        failed env.getLatestBlockhash || failed env.simulateTransaction ||
        failed env.signTransaction) = true →
      (createOpenBookV2OrderInstruction env).1.success = false ∧
        (createOpenBookV2OrderInstruction env).2 = 0) ∧
    ((createOpenBookV2OrderInstruction env).1.success = true →
      (createOpenBookV2OrderInstruction env).2 = 1) ∧
    (failed menv.getConnection = true →
      (mintIrmaToken menv).1 = false ∧ (mintIrmaToken menv).2 = 0) := by
  obtain ⟨hsucc, hcount⟩ := createOrder_cases env
  refine ⟨?_, ?_, ?_⟩
  · rw [hsucc, hcount]
    cases failed env.fetchMarket <;> cases marketMissing env.fetchMarket <;>
      cases failed env.createOpenOrdersIx <;> cases failed env.placeOrderIx <;>
      cases failed env.getLatestBlockhash <;> cases failed env.simulateTransaction <;>
      cases failed env.signTransaction <;> simp
  · rw [hsucc, hcount]
    cases failed env.fetchMarket <;> cases marketMissing env.fetchMarket <;>
      cases failed env.createOpenOrdersIx <;> cases failed env.placeOrderIx <;>
      cases failed env.getLatestBlockhash <;> cases failed env.simulateTransaction <;>
      cases failed env.signTransaction <;> cases failed env.sendRawTransaction <;> simp
  · intro h
    obtain ⟨gc, gai, sub, bh2⟩ := menv
    match gc with
    | Except.error e => simp [mintIrmaToken]
    | Except.ok _ => simp [failed] at h

/-- C6 witness: evaluates the statement on a failing market fetch, on an
all-success environment, and on a failing connection acquisition. -/
theorem submit_no_broadcast_witness :
    ((createOpenBookV2OrderInstruction submitEnvFetchFails).1.success = false ∧
      (createOpenBookV2OrderInstruction submitEnvFetchFails).2 = 0) ∧
    (createOpenBookV2OrderInstruction submitEnvAllOk).2 = 1 ∧
    ((mintIrmaToken mintEnvConnFails).1 = false ∧
      (mintIrmaToken mintEnvConnFails).2 = 0) :=
  ⟨(submit_no_broadcast_on_early_failure submitEnvFetchFails mintEnvConnFails).1 rfl,
    (submit_no_broadcast_on_early_failure submitEnvAllOk mintEnvConnFails).2.1 rfl,
    (submit_no_broadcast_on_early_failure submitEnvAllOk mintEnvConnFails).2.2 rfl⟩

/-- C7: mintIrmaToken is a total boolean-returning function of its
environment — no exception crosses its boundary — and it returns true exactly
when every step of the submission sequence succeeded: connection acquisition,
the market account probe, the inner order submission, and the final blockhash
fetch; on any internal failure it returns false. -/
theorem mintIrmaToken_true_iff (env : MintEnv) :
    (mintIrmaToken env).1 = true ↔
      (failed env.getConnection = false ∧ failed env.getAccountInfo = false ∧
        (createOpenBookV2OrderInstruction env.submit).1.success = true ∧
        failed env.getLatestBlockhash2 = false) := by
  obtain ⟨gc, gai, sub, bh2⟩ := env
  cases gc <;> cases gai <;> cases bh2 <;>
    simp only [mintIrmaToken, failed] <;>
    cases (createOpenBookV2OrderInstruction sub).1.success <;> simp

/-- C8: when the connection is live and the wallet has no token account for
any tracked token, the reader returns exactly one record per tracked token,
each with balance 0 and the declared default precision of 6 decimals, and the
untargeted fallback scan is attempted; the scan itself is unconstrained (it
may fail), yet the read always completes with these records. -/
theorem fetchTokenBalances_zero_accounts (env : BalanceEnv)
    (hconn : env.getConnection = Except.ok ())
    (hirma : env.getTokenAccounts irmaMint = Except.ok [])
    (husdc : env.getTokenAccounts usdcMint = Except.ok []) :
    (fetchTokenBalances env).1 =
      [{ mint := "IRMA", symbol := "IRMA", balance := 0, decimals := 6,
         mintAddress := irmaMint },
       { mint := "USDC", symbol := "USDC", balance := 0, decimals := 6,
         mintAddress := usdcMint }] ∧
    (fetchTokenBalances env).2 = true := by
  unfold fetchTokenBalances
  rw [hconn]
  simp [TOKENS, balanceFor, hirma, husdc]

/-- C8 witness: evaluates the statement on the concrete empty-wallet
environment whose fallback scan fails. -/
theorem fetchTokenBalances_zero_accounts_witness :
    (fetchTokenBalances balanceEnvEmpty).1 =
      [{ mint := "IRMA", symbol := "IRMA", balance := 0, decimals := 6,
         mintAddress := irmaMint },
       { mint := "USDC", symbol := "USDC", balance := 0, decimals := 6,
         mintAddress := usdcMint }] ∧
    (fetchTokenBalances balanceEnvEmpty).2 = true :=
  fetchTokenBalances_zero_accounts balanceEnvEmpty rfl rfl rfl

/-- C9: for two consecutive throttle calls, the second call returns no earlier
than the fixed interval after the first call returned, measured from the
wall-clock time of the first return, provided the wait honours the setTimeout
contract of resuming no earlier than now plus the requested delay. -/
theorem throttle_consecutive_spacing (st : RateLimiterState)
    (now1 resume1 now2 resume2 : ℤ)
    (hw : now2 + (RATE_LIMIT_DELAY -
        (now2 - (throttle st now1 resume1).2.lastRequestTime)) ≤ resume2) :
    (throttle st now1 resume1).1 + RATE_LIMIT_DELAY ≤
      (throttle (throttle st now1 resume1).2 now2 resume2).1 := by
  have h := throttle_return_ge (throttle st now1 resume1).2 now2 resume2 hw
  rw [throttle_state_eq st now1 resume1] at h
  exact h

/-- C9 witness: a first call entering at time 0 against an idle limiter
returns at time 1000; a second call entering at 1500 resumes at 2000, which is
at least 1000 after the first return. -/
theorem throttle_consecutive_spacing_witness :
    (throttle ⟨0⟩ 0 1000).1 + RATE_LIMIT_DELAY ≤
      (throttle (throttle ⟨0⟩ 0 1000).2 1500 2000).1 :=
  throttle_consecutive_spacing ⟨0⟩ 0 1000 1500 2000 (by decide)

/-- C10: getOrderStatus never returns null and, for every order id, returns
the same constant placeholder record: status pending, filledAmount 0,
remainingAmount 0 and price 1.04, independent of the order id. -/
theorem getOrderStatus_constant (orderId : String) :
    getOrderStatus orderId =
      some { status := OrderStatusTag.pending
             filledAmount := some 0
             remainingAmount := some 0
             price := some (104 / 100) } ∧
    getOrderStatus orderId ≠ none := by
  exact ⟨rfl, by simp [getOrderStatus]⟩
